import Mathlib

/-!
Shallow embedding of the zinc toolchain sources:
* `Interpreter` — `interpreter/src/element/value/mod.rs` (the value algebra);
* `ZincVm` — `zinc-vm/src/instructions/memory/store_array.rs` (store-sequence);
* `Zinc` — `zinc/src/instructions/builtins/cs.rs` (conditional select);
* `ZincCompiler` — `zinc-compiler/src/syntax/parser/statement/let.rs` (let parser).

Submodules that are not among the sources (`boolean.rs`, `integer.rs`,
the VM core, the type/expression sub-parsers) are modelled from the spec;
each such definition carries a doc comment saying so.
-/

namespace Interpreter

/-- Structural type descriptor (the `TypeVariant` of the out-of-scope parser
crate). Modelled from the spec: unit; boolean; integer(bits, signed);
array(elem, length); tuple(elems); structure(named-elems). -/
inductive TypeVariant where
  | Unit : TypeVariant
  | Boolean : TypeVariant
  | Integer (is_signed : Bool) (bitlength : Nat) : TypeVariant
  | Array (element : TypeVariant) (size : Nat) : TypeVariant
  | Tuple (elements : List TypeVariant) : TypeVariant
  | Structure (fields : List (String × TypeVariant)) : TypeVariant

/-- Rust `TypeVariant::new_unit()`. -/
def TypeVariant.new_unit : TypeVariant := TypeVariant.Unit

/-- Rust `TypeVariant::new_integer_unsigned(bitlength)`. -/
def TypeVariant.new_integer_unsigned (bitlength : Nat) : TypeVariant :=
  TypeVariant.Integer false bitlength

mutual

/-- Structural equality of type descriptors, decidable. -/
def TypeVariant.beq : TypeVariant → TypeVariant → Bool
  | .Unit, .Unit => true
  | .Boolean, .Boolean => true
  | .Integer s1 b1, .Integer s2 b2 => s1 == s2 && b1 == b2
  | .Array e1 n1, .Array e2 n2 => TypeVariant.beq e1 e2 && n1 == n2
  | .Tuple l1, .Tuple l2 => TypeVariant.beqList l1 l2
  | .Structure f1, .Structure f2 => TypeVariant.beqFields f1 f2
  | _, _ => false

/-- Pointwise `TypeVariant.beq` on descriptor lists. -/
def TypeVariant.beqList : List TypeVariant → List TypeVariant → Bool
  | [], [] => true
  | t1 :: l1, t2 :: l2 => TypeVariant.beq t1 t2 && TypeVariant.beqList l1 l2
  | _, _ => false

/-- Pointwise `TypeVariant.beq` on named-field lists. -/
def TypeVariant.beqFields :
    List (String × TypeVariant) → List (String × TypeVariant) → Bool
  | [], [] => true
  | (k1, t1) :: f1, (k2, t2) :: f2 =>
      k1 == k2 && TypeVariant.beq t1 t2 && TypeVariant.beqFields f1 f2
  | _, _ => false

end

/-- The constraint system, abstracted to the number of allocations and
constraints emitted so far; every gadget call advances it, an error path
leaves it untouched. -/
abbrev CS := Nat

/-- Modelled from the spec: `boolean.rs` is not among the sources.  A boolean
value is one allocated bit, constrained to be 0 or 1, plus its concrete
assignment; only the assignment is semantically visible. -/
structure Boolean where
  value : Bool
deriving DecidableEq, Repr

/-- Modelled from the spec: `integer.rs` is not among the sources.  An integer
value carries its concrete value and its (signedness, bit-width) tag. -/
structure Integer where
  value : Int
  is_signed : Bool
  bitlength : Nat
deriving DecidableEq, Repr

/-- Modelled from the spec: errors of the integer gadgets (overflow checks,
width mismatch, division by zero). -/
inductive IntegerError where
  | TypeMismatch : IntegerError
  | Overflow : IntegerError
  | DivisionByZero : IntegerError
deriving DecidableEq, Repr

/-- Rust `Boolean::new_from_bool` — allocates one constrained bit. -/
def Boolean.new_from_bool (cs : CS) (b : Bool) : Boolean × CS :=
  (⟨b⟩, cs + 1)

/-- Modelled from the spec: AND allocates `c` with constraint `a·b = c`. -/
def Boolean.and (cs : CS) (a b : Boolean) : Boolean × CS :=
  (⟨a.value && b.value⟩, cs + 1)

/-- Modelled from the spec: `OR(a,b) = 1 − ((1−a)·(1−b))`. -/
def Boolean.or (cs : CS) (a b : Boolean) : Boolean × CS :=
  (⟨a.value || b.value⟩, cs + 1)

/-- Modelled from the spec: XOR allocates `c = a + b − 2·a·b`. -/
def Boolean.xor (cs : CS) (a b : Boolean) : Boolean × CS :=
  (⟨a.value != b.value⟩, cs + 2)

/-- Modelled from the spec: `NOT b` is `1 − b`, no new constraint. -/
def Boolean.not (cs : CS) (a : Boolean) : Boolean × CS :=
  (⟨!a.value⟩, cs)

/-- Modelled from the spec: the equality gadget allocates `e ∈ {0,1}` and an
inverse witness with `(a−b)·inv = 1−e`, `(a−b)·e = 0`. -/
def Boolean.equals (cs : CS) (a b : Boolean) : Boolean × CS :=
  (⟨decide (a.value = b.value)⟩, cs + 2)

/-- Modelled from the spec: `neq` is `1 − eq`. -/
def Boolean.not_equals (cs : CS) (a b : Boolean) : Boolean × CS :=
  (⟨!decide (a.value = b.value)⟩, cs + 2)

/-- Rust `Boolean::type_variant` — always the boolean descriptor. -/
def Boolean.type_variant (_ : Boolean) : TypeVariant := TypeVariant.Boolean

/-- Rust `Integer::type_variant` — the (signedness, width) descriptor. -/
def Integer.type_variant (a : Integer) : TypeVariant :=
  TypeVariant.Integer a.is_signed a.bitlength

/-- Rust `Integer::has_the_same_type_as`. Modelled from the spec: type equality is
structural, i.e. the (signedness, width) tags coincide. -/
def Integer.has_the_same_type_as (a b : Integer) : Bool :=
  a.is_signed == b.is_signed && a.bitlength == b.bitlength

/-- Modelled from the spec: field-element equality gadget on two integers. -/
def Integer.equals (cs : CS) (a b : Integer) : Boolean × CS :=
  (⟨decide (a.value = b.value)⟩, cs + 2)

/-- Modelled from the spec: `neq` is `1 − eq`. -/
def Integer.not_equals (cs : CS) (a b : Integer) : Boolean × CS :=
  (⟨!decide (a.value = b.value)⟩, cs + 2)

/-- Smallest representable value of the (signedness, width) range. -/
def Integer.min_value (is_signed : Bool) (w : Nat) : Int :=
  if is_signed then -(2 ^ (w - 1)) else 0

/-- Largest representable value of the (signedness, width) range. -/
def Integer.max_value (is_signed : Bool) (w : Nat) : Int :=
  if is_signed then 2 ^ (w - 1) - 1 else 2 ^ w - 1

/-- Range check for the tagged width. -/
def Integer.fits (x : Int) (is_signed : Bool) (w : Nat) : Bool :=
  decide (Integer.min_value is_signed w ≤ x) && decide (x ≤ Integer.max_value is_signed w)

/-- Modelled from the spec: widths and signedness must match; the result is
range-checked against the tagged width by bit decomposition. -/
def Integer.checked (cs : CS) (a b : Integer) (r : Int) :
    Except IntegerError Integer × CS :=
  if a.is_signed != b.is_signed || a.bitlength != b.bitlength then
    (.error .TypeMismatch, cs)
  else if Integer.fits r a.is_signed a.bitlength then
    (.ok ⟨r, a.is_signed, a.bitlength⟩, cs + a.bitlength + 1)
  else
    (.error .Overflow, cs + a.bitlength + 1)

/-- Modelled from the spec: checked addition. -/
def Integer.add (cs : CS) (a b : Integer) : Except IntegerError Integer × CS :=
  Integer.checked cs a b (a.value + b.value)

/-- Modelled from the spec: checked subtraction. -/
def Integer.subtract (cs : CS) (a b : Integer) : Except IntegerError Integer × CS :=
  Integer.checked cs a b (a.value - b.value)

/-- Modelled from the spec: checked multiplication. -/
def Integer.multiply (cs : CS) (a b : Integer) : Except IntegerError Integer × CS :=
  Integer.checked cs a b (a.value * b.value)

/-- Modelled from the spec: truncation-toward-zero division, zero divisor
refused. -/
def Integer.divide (cs : CS) (a b : Integer) : Except IntegerError Integer × CS :=
  if b.value = 0 then (.error .DivisionByZero, cs)
  else Integer.checked cs a b (Int.tdiv a.value b.value)

/-- Modelled from the spec: truncation-toward-zero remainder, zero divisor
refused. -/
def Integer.modulo (cs : CS) (a b : Integer) : Except IntegerError Integer × CS :=
  if b.value = 0 then (.error .DivisionByZero, cs)
  else Integer.checked cs a b (Int.tmod a.value b.value)

/-- Modelled from the spec: negation is `0 − x` with overflow check. -/
def Integer.negate (cs : CS) (a : Integer) : Except IntegerError Integer × CS :=
  Integer.checked cs a a (-a.value)

/-- Modelled from the spec: ordered comparison gadget; widths and signedness
must match. -/
def Integer.compared (cs : CS) (a b : Integer) (r : Bool) :
    Except IntegerError Boolean × CS :=
  if a.is_signed != b.is_signed || a.bitlength != b.bitlength then
    (.error .TypeMismatch, cs)
  else
    (.ok ⟨r⟩, cs + a.bitlength + 2)

/-- Modelled from the spec: `gt` derives from `lt` and `eq`. -/
def Integer.greater (cs : CS) (a b : Integer) : Except IntegerError Boolean × CS :=
  Integer.compared cs a b (decide (b.value < a.value))

/-- Modelled from the spec: `ge` derives from `lt` and `eq`. -/
def Integer.greater_equals (cs : CS) (a b : Integer) : Except IntegerError Boolean × CS :=
  Integer.compared cs a b (decide (b.value ≤ a.value))

/-- Modelled from the spec: `lt` by bit-decomposing `a − b` at width `w+1`. -/
def Integer.lesser (cs : CS) (a b : Integer) : Except IntegerError Boolean × CS :=
  Integer.compared cs a b (decide (a.value < b.value))

/-- Modelled from the spec: `le` derives from `lt` and `eq`. -/
def Integer.lesser_equals (cs : CS) (a b : Integer) : Except IntegerError Boolean × CS :=
  Integer.compared cs a b (decide (a.value ≤ b.value))

/-- The value algebra's tagged sum (`Value` in `value/mod.rs`). -/
inductive Value where
  | Unit : Value
  | Boolean (value : Boolean) : Value
  | Integer (value : Integer) : Value
  | Array (elements : List Value) : Value
  | Tuple (elements : List Value) : Value
  | Structure (fields : List (String × Value)) : Value
  | Enumeration (value : Nat) : Value

/-- The `Error` enum of `value/error.rs` (the file itself is not among the
sources; the constructors are exactly those used by `value/mod.rs`, with the
boolean gadget errors dropped because the modelled boolean gadgets are total). -/
inductive Error where
  | Integer (e : IntegerError) : Error
  | ExpectedBoolean (op : String) (v : Value) : Error
  | ExpectedInteger (op : String) (v : Value) : Error
  | OperandTypesMismatch (v1 v2 : Value) : Error

/-- The constructor of an error, forgetting the operation name and the
operand payloads. -/
inductive ErrorKind where
  | Integer : ErrorKind
  | ExpectedBoolean : ErrorKind
  | ExpectedInteger : ErrorKind
  | OperandTypesMismatch : ErrorKind
deriving DecidableEq, Repr

/-- Map an error to its kind. -/
def Error.kind : Error → ErrorKind
  | .Integer _ => .Integer
  | .ExpectedBoolean _ _ => .ExpectedBoolean
  | .ExpectedInteger _ _ => .ExpectedInteger
  | .OperandTypesMismatch _ _ => .OperandTypesMismatch

mutual

/-- Rust `Value::type_variant` (`value/mod.rs` lines 98–108): every `Enumeration`
reports the unsigned 8-bit integer descriptor. -/
def Value.type_variant : Value → TypeVariant
  | .Unit => TypeVariant.new_unit
  | .Boolean value => value.type_variant
  | .Integer value => value.type_variant
  | .Array elements =>
      TypeVariant.Array (headTypeVariant elements) elements.length
  | .Tuple elements => TypeVariant.Tuple (typeVariantList elements)
  | .Structure fields => TypeVariant.Structure (typeVariantFields fields)
  | .Enumeration _ => TypeVariant.new_integer_unsigned 8

/-- Type descriptor of the element of an array (unit when empty). Modelled
from the spec: `array.rs` is not among the sources; an array is an ordered
sequence of values of identical type, so the head's type represents all. -/
def headTypeVariant : List Value → TypeVariant
  | [] => TypeVariant.Unit
  | v :: _ => Value.type_variant v

/-- Descriptors of a tuple's components. -/
def typeVariantList : List Value → List TypeVariant
  | [] => []
  | v :: vs => Value.type_variant v :: typeVariantList vs

/-- Descriptors of a structure's named fields. -/
def typeVariantFields : List (String × Value) → List (String × TypeVariant)
  | [] => []
  | (k, v) :: fs => (k, Value.type_variant v) :: typeVariantFields fs

end

/-- Modelled from the spec: `array.rs` is not among the sources; type equality
of arrays is structural, i.e. comparison of the two descriptors. -/
def arrayHasTheSameTypeAs (v1 v2 : List Value) : Bool :=
  TypeVariant.beq (Value.type_variant (.Array v1)) (Value.type_variant (.Array v2))

/-- Modelled from the spec: `tuple.rs` is not among the sources; type equality
of tuples is structural. -/
def tupleHasTheSameTypeAs (v1 v2 : List Value) : Bool :=
  TypeVariant.beq (Value.type_variant (.Tuple v1)) (Value.type_variant (.Tuple v2))

/-- Modelled from the spec: `structure.rs` is not among the sources; type
equality of structures is structural (names, order, and field types). -/
def structureHasTheSameTypeAs (v1 v2 : List (String × Value)) : Bool :=
  TypeVariant.beq (Value.type_variant (.Structure v1)) (Value.type_variant (.Structure v2))

/-- Rust `Value::has_the_same_type_as` (`value/mod.rs` lines 110–124).  Note the
catch-all arm: an `Enumeration` compared with anything, itself included,
falls through to `false`. -/
def Value.has_the_same_type_as (self other : Value) : Bool :=
  match self, other with
  | .Unit, .Unit => true
  | .Boolean _, .Boolean _ => true
  | .Integer value_1, .Integer value_2 => value_1.has_the_same_type_as value_2
  | .Array value_1, .Array value_2 => arrayHasTheSameTypeAs value_1 value_2
  | .Tuple value_1, .Tuple value_2 => tupleHasTheSameTypeAs value_1 value_2
  | .Structure value_1, .Structure value_2 => structureHasTheSameTypeAs value_1 value_2
  | _, _ => false

/-- Kind test used to state the wrong-operand claims. -/
def Value.isBoolean : Value → Bool
  | .Boolean _ => true
  | _ => false

/-- Kind test used to state the wrong-operand claims. -/
def Value.isInteger : Value → Bool
  | .Integer _ => true
  | _ => false

/-- Kind test used to state the aggregate claims. -/
def Value.isArray : Value → Bool
  | .Array _ => true
  | _ => false

/-- Kind test used to state the aggregate claims. -/
def Value.isTuple : Value → Bool
  | .Tuple _ => true
  | _ => false

/-- Kind test used to state the aggregate claims. -/
def Value.isStructure : Value → Bool
  | .Structure _ => true
  | _ => false

/-- Kind test used to state the enumeration claims. -/
def Value.isEnumeration : Value → Bool
  | .Enumeration _ => true
  | _ => false

/-- Rust `Value::or` (`value/mod.rs` lines 126–141). -/
def Value.or (self : Value) (cs : CS) (other : Value) : Except Error Value × CS :=
  match self with
  | .Boolean value_1 =>
    match other with
    | .Boolean value_2 =>
        let (r, cs) := Boolean.or cs value_1 value_2
        (.ok (.Boolean r), cs)
    | value => (.error (.ExpectedBoolean "or" value), cs)
  | value => (.error (.ExpectedBoolean "or" value), cs)

/-- Rust `Value::xor` (`value/mod.rs` lines 143–162). -/
def Value.xor (self : Value) (cs : CS) (other : Value) : Except Error Value × CS :=
  match self with
  | .Boolean value_1 =>
    match other with
    | .Boolean value_2 =>
        let (r, cs) := Boolean.xor cs value_1 value_2
        (.ok (.Boolean r), cs)
    | value => (.error (.ExpectedBoolean "xor" value), cs)
  | value => (.error (.ExpectedBoolean "xor" value), cs)

/-- Rust `Value::and` (`value/mod.rs` lines 164–183). -/
def Value.and (self : Value) (cs : CS) (other : Value) : Except Error Value × CS :=
  match self with
  | .Boolean value_1 =>
    match other with
    | .Boolean value_2 =>
        let (r, cs) := Boolean.and cs value_1 value_2
        (.ok (.Boolean r), cs)
    | value => (.error (.ExpectedBoolean "and" value), cs)
  | value => (.error (.ExpectedBoolean "and" value), cs)

/-- Rust `Value::equals` (`value/mod.rs` lines 185–215): unit/unit yields the
constant true; booleans and integers go to the equality gadget; a boolean or
integer against another kind yields the typed error; every remaining pair —
arrays, tuples, structures, enumerations included — falls through to
`OperandTypesMismatch`. -/
def Value.equals (self : Value) (cs : CS) (other : Value) : Except Error Value × CS :=
  match self, other with
  | .Unit, .Unit =>
      let (r, cs) := Boolean.new_from_bool cs true
      (.ok (.Boolean r), cs)
  | .Boolean value_1, .Boolean value_2 =>
      let (r, cs) := Boolean.equals cs value_1 value_2
      (.ok (.Boolean r), cs)
  | .Boolean _, value_2 => (.error (.ExpectedBoolean "equals" value_2), cs)
  | .Integer value_1, .Integer value_2 =>
      let (r, cs) := Integer.equals cs value_1 value_2
      (.ok (.Boolean r), cs)
  | .Integer _, value_2 => (.error (.ExpectedInteger "equals" value_2), cs)
  | value_1, value_2 => (.error (.OperandTypesMismatch value_1 value_2), cs)

/-- Rust `Value::not_equals` (`value/mod.rs` lines 217–247), arm for arm the
negation of `Value.equals`. -/
def Value.not_equals (self : Value) (cs : CS) (other : Value) : Except Error Value × CS :=
  match self, other with
  | .Unit, .Unit =>
      let (r, cs) := Boolean.new_from_bool cs false
      (.ok (.Boolean r), cs)
  | .Boolean value_1, .Boolean value_2 =>
      let (r, cs) := Boolean.not_equals cs value_1 value_2
      (.ok (.Boolean r), cs)
  | .Boolean _, value_2 => (.error (.ExpectedBoolean "not_equals" value_2), cs)
  | .Integer value_1, .Integer value_2 =>
      let (r, cs) := Integer.not_equals cs value_1 value_2
      (.ok (.Boolean r), cs)
  | .Integer _, value_2 => (.error (.ExpectedInteger "not_equals" value_2), cs)
  | value_1, value_2 => (.error (.OperandTypesMismatch value_1 value_2), cs)

/-- Rust `Value::greater_equals` (`value/mod.rs` lines 249–268). -/
def Value.greater_equals (self : Value) (cs : CS) (other : Value) : Except Error Value × CS :=
  match self with
  | .Integer value_1 =>
    match other with
    | .Integer value_2 =>
        let (r, cs) := Integer.greater_equals cs value_1 value_2
        (r.map Value.Boolean |>.mapError Error.Integer, cs)
    | value => (.error (.ExpectedInteger "greater_equals" value), cs)
  | value => (.error (.ExpectedInteger "greater_equals" value), cs)

/-- Rust `Value::lesser_equals` (`value/mod.rs` lines 270–289). -/
def Value.lesser_equals (self : Value) (cs : CS) (other : Value) : Except Error Value × CS :=
  match self with
  | .Integer value_1 =>
    match other with
    | .Integer value_2 =>
        let (r, cs) := Integer.lesser_equals cs value_1 value_2
        (r.map Value.Boolean |>.mapError Error.Integer, cs)
    | value => (.error (.ExpectedInteger "lesser_equals" value), cs)
  | value => (.error (.ExpectedInteger "lesser_equals" value), cs)

/-- Rust `Value::greater` (`value/mod.rs` lines 291–310). -/
def Value.greater (self : Value) (cs : CS) (other : Value) : Except Error Value × CS :=
  match self with
  | .Integer value_1 =>
    match other with
    | .Integer value_2 =>
        let (r, cs) := Integer.greater cs value_1 value_2
        (r.map Value.Boolean |>.mapError Error.Integer, cs)
    | value => (.error (.ExpectedInteger "greater" value), cs)
  | value => (.error (.ExpectedInteger "greater" value), cs)

/-- Rust `Value::lesser` (`value/mod.rs` lines 312–331). -/
def Value.lesser (self : Value) (cs : CS) (other : Value) : Except Error Value × CS :=
  match self with
  | .Integer value_1 =>
    match other with
    | .Integer value_2 =>
        let (r, cs) := Integer.lesser cs value_1 value_2
        (r.map Value.Boolean |>.mapError Error.Integer, cs)
    | value => (.error (.ExpectedInteger "lesser" value), cs)
  | value => (.error (.ExpectedInteger "lesser" value), cs)

/-- Rust `Value::add` (`value/mod.rs` lines 333–352). -/
def Value.add (self : Value) (cs : CS) (other : Value) : Except Error Value × CS :=
  match self with
  | .Integer value_1 =>
    match other with
    | .Integer value_2 =>
        let (r, cs) := Integer.add cs value_1 value_2
        (r.map Value.Integer |>.mapError Error.Integer, cs)
    | value => (.error (.ExpectedInteger "add" value), cs)
  | value => (.error (.ExpectedInteger "add" value), cs)

/-- Rust `Value::subtract` (`value/mod.rs` lines 354–373). -/
def Value.subtract (self : Value) (cs : CS) (other : Value) : Except Error Value × CS :=
  match self with
  | .Integer value_1 =>
    match other with
    | .Integer value_2 =>
        let (r, cs) := Integer.subtract cs value_1 value_2
        (r.map Value.Integer |>.mapError Error.Integer, cs)
    | value => (.error (.ExpectedInteger "subtract" value), cs)
  | value => (.error (.ExpectedInteger "subtract" value), cs)

/-- Rust `Value::multiply` (`value/mod.rs` lines 375–394). -/
def Value.multiply (self : Value) (cs : CS) (other : Value) : Except Error Value × CS :=
  match self with
  | .Integer value_1 =>
    match other with
    | .Integer value_2 =>
        let (r, cs) := Integer.multiply cs value_1 value_2
        (r.map Value.Integer |>.mapError Error.Integer, cs)
    | value => (.error (.ExpectedInteger "multiply" value), cs)
  | value => (.error (.ExpectedInteger "multiply" value), cs)

/-- Rust `Value::divide` (`value/mod.rs` lines 396–415). -/
def Value.divide (self : Value) (cs : CS) (other : Value) : Except Error Value × CS :=
  match self with
  | .Integer value_1 =>
    match other with
    | .Integer value_2 =>
        let (r, cs) := Integer.divide cs value_1 value_2
        (r.map Value.Integer |>.mapError Error.Integer, cs)
    | value => (.error (.ExpectedInteger "divide" value), cs)
  | value => (.error (.ExpectedInteger "divide" value), cs)

/-- Rust `Value::modulo` (`value/mod.rs` lines 417–436). -/
def Value.modulo (self : Value) (cs : CS) (other : Value) : Except Error Value × CS :=
  match self with
  | .Integer value_1 =>
    match other with
    | .Integer value_2 =>
        let (r, cs) := Integer.modulo cs value_1 value_2
        (r.map Value.Integer |>.mapError Error.Integer, cs)
    | value => (.error (.ExpectedInteger "modulo" value), cs)
  | value => (.error (.ExpectedInteger "modulo" value), cs)

/-- Rust `Value::negate` (`value/mod.rs` lines 438–448). -/
def Value.negate (self : Value) (cs : CS) : Except Error Value × CS :=
  match self with
  | .Integer value =>
      let (r, cs) := Integer.negate cs value
      (r.map Value.Integer |>.mapError Error.Integer, cs)
  | value => (.error (.ExpectedInteger "negate" value), cs)

/-- Rust `Value::not` (`value/mod.rs` lines 450–460). -/
def Value.not (self : Value) (cs : CS) : Except Error Value × CS :=
  match self with
  | .Boolean value =>
      let (r, cs) := Boolean.not cs value
      (.ok (.Boolean r), cs)
  | value => (.error (.ExpectedBoolean "not" value), cs)

/-- The result is the typed boolean-operand error and the constraint system is
untouched. -/
def rejectsBoolean (r : Except Error Value × CS) (cs : CS) : Prop :=
  (∃ op v, r.1 = .error (.ExpectedBoolean op v)) ∧ r.2 = cs

/-- The result is the typed integer-operand error and the constraint system is
untouched. -/
def rejectsInteger (r : Except Error Value × CS) (cs : CS) : Prop :=
  (∃ op v, r.1 = .error (.ExpectedInteger op v)) ∧ r.2 = cs

end Interpreter

namespace ZincVm

/-- The runtime error taxonomy of the `zinc-vm` crate, restricted to the
constructors the store-sequence handler can surface. -/
inductive RuntimeError where
  | StackUnderflow : RuntimeError
deriving DecidableEq, Repr

/-- The VM state the store-sequence handler touches: the data stack (head is
the top) and the offset-indexed memory.  The element type is kept generic, as
the Rust handler is generic over the engine's primitive. -/
structure VirtualMachine (α : Type) where
  stack : List α
  memory : Nat → Option α

/-- Modelled from the spec: `vm.pop()` removes and returns the top of the data
stack, or fails with a stack underflow. -/
def VirtualMachine.pop (vm : VirtualMachine α) :
    Except RuntimeError (α × VirtualMachine α) :=
  match vm.stack with
  | [] => .error .StackUnderflow
  | v :: rest => .ok (v, { vm with stack := rest })

/-- Modelled from the spec: `vm.store(i, value)` writes the value at absolute
offset `i`. -/
def VirtualMachine.store (vm : VirtualMachine α) (i : Nat) (v : α) :
    Except RuntimeError (VirtualMachine α) :=
  .ok { vm with memory := fun j => if j = i then some v else vm.memory j }

/-- The `StoreSequence` instruction's operands. -/
structure StoreSequence where
  address : Nat
  len : Nat

/-- The loop body of `StoreSequence::execute`
(`store_array.rs` lines 12–19): `for i in 0..len { let value = vm.pop()?;
vm.store(address + len - i - 1, value)?; }`. -/
def StoreSequence.loop (address len : Nat) (i : Nat) (vm : VirtualMachine α) :
    Except RuntimeError (VirtualMachine α) :=
  if _h : i < len then do
    let (value, vm) ← vm.pop
    let vm ← vm.store (address + len - i - 1) value
    StoreSequence.loop address len (i + 1) vm
  else
    .ok vm
termination_by len - i

/-- Rust `StoreSequence::execute` (`store_array.rs` lines 12–19). -/
def StoreSequence.execute (self : StoreSequence) (vm : VirtualMachine α) :
    Except RuntimeError (VirtualMachine α) :=
  StoreSequence.loop self.address self.len 0 vm

end ZincVm

namespace Zinc

/-- The runtime error taxonomy of the `zinc` crate, restricted to what the
conditional-select handler can surface. -/
inductive RuntimeError where
  | StackUnderflow : RuntimeError
deriving DecidableEq, Repr

/-- Modelled from the spec: the elements of this crate's VM are scalar field
values (the unit test drives the handler with plain integers). -/
abbrev Element := Int

/-- The VM state the conditional-select handler touches: the data stack (head
is the top) and the program counter. -/
structure VirtualMachine where
  stack : List Element
  pc : Nat
deriving DecidableEq, Repr

/-- Modelled from the spec: `vm.pop()` removes and returns the top of the data
stack, or fails with a stack underflow. -/
def VirtualMachine.pop (vm : VirtualMachine) :
    Except RuntimeError (Element × VirtualMachine) :=
  match vm.stack with
  | [] => .error .StackUnderflow
  | v :: rest => .ok (v, { vm with stack := rest })

/-- Modelled from the spec: `vm.push(value)` puts the value on top of the data
stack. -/
def VirtualMachine.push (vm : VirtualMachine) (v : Element) :
    Except RuntimeError VirtualMachine :=
  .ok { vm with stack := v :: vm.stack }

/-- Modelled from the spec: the operator's `conditional_select` (the
`ElementOperator` implementation is not among the sources) returns
`c·t + (1−c)·f` per field element. -/
def conditional_select (condition if_true if_false : Element) :
    Except RuntimeError Element :=
  .ok (condition * if_true + (1 - condition) * if_false)

/-- Rust `ConditionalSelect::execute` (`cs.rs` lines 13–23): pop the condition,
then `if_true`, then `if_false`, select, push the result.  The handler never
touches the program counter. -/
def ConditionalSelect.execute (vm : VirtualMachine) :
    Except RuntimeError VirtualMachine := do
  let (condition, vm) ← vm.pop
  let (if_true, vm) ← vm.pop
  let (if_false, vm) ← vm.pop
  let selected ← conditional_select condition if_true if_false
  vm.push selected

/-- Modelled from the spec: the dispatch loop reads the instruction at the
program counter, advances the counter, and invokes the handler; specialised
here to a conditional-select instruction. -/
def ConditionalSelect.step (vm : VirtualMachine) :
    Except RuntimeError VirtualMachine :=
  ConditionalSelect.execute { vm with pc := vm.pc + 1 }

end Zinc

namespace ZincCompiler

/-- Source location (line, column); carried for diagnostics only. -/
structure Location where
  line : Nat
  column : Nat
deriving DecidableEq, Repr

/-- The keywords the let-statement parser inspects. -/
inductive Keyword where
  | Let : Keyword
  | Mut : Keyword
deriving DecidableEq, Repr

/-- The symbols the let-statement parser inspects. -/
inductive Symbol where
  | Colon : Symbol
  | Equals : Symbol
  | Semicolon : Symbol
deriving DecidableEq, Repr

/-- The lexemes the let-statement parser inspects; every other token kind
(literals, operators, further keywords) is `Other`, consumed only by the
type and expression sub-parsers. -/
inductive Lexeme where
  | Keyword (keyword : Keyword) : Lexeme
  | Identifier (name : String) : Lexeme
  | Symbol (symbol : Symbol) : Lexeme
  | Other (tag : String) : Lexeme
  | Eof : Lexeme
deriving DecidableEq, Repr

/-- A token: a lexeme with its location. -/
structure Token where
  lexeme : Lexeme
  location : Location
deriving DecidableEq, Repr

/-- The syntax error constructors raised by the let-statement parser (the
error module is not among the sources; the constructors and payloads are
exactly those used by `let.rs`). -/
inductive SyntaxError where
  | ExpectedOneOf (location : Location) (expected : List String) (found : Lexeme)
      (help : Option String) : SyntaxError
  | ExpectedMutOrIdentifier (location : Location) (found : Lexeme)
      (help : Option String) : SyntaxError
  | ExpectedIdentifier (location : Location) (found : Lexeme)
      (help : Option String) : SyntaxError
  | ExpectedTypeOrValue (location : Location) (found : Lexeme)
      (help : Option String) : SyntaxError
  | ExpectedValue (location : Location) (found : Lexeme)
      (help : Option String) : SyntaxError
  | ExpectedOneOfOrOperator (location : Location) (expected : List String)
      (found : Lexeme) : SyntaxError
deriving DecidableEq, Repr

/-- The compiler error wrapper used by `let.rs`. -/
inductive Error where
  | Syntax (e : SyntaxError) : Error
deriving DecidableEq, Repr

/-- Rust `HINT_EXPECTED_IDENTIFIER` (`let.rs` lines 21–22). -/
def HINT_EXPECTED_IDENTIFIER : String :=
  "variable must have an identifier, e.g. `let value: u8 = 42;`"

/-- Rust `HINT_EXPECTED_VALUE` (`let.rs` line 23). -/
def HINT_EXPECTED_VALUE : String :=
  "variable must be initialized, e.g. `let value: u8 = 42;`"

/-- An identifier with its location (`syntax/tree/identifier.rs`). -/
structure Identifier where
  location : Location
  name : String
deriving DecidableEq, Repr

/-- The let-statement builder (`statement/let/builder.rs`, not among the
sources): optional slots filled as the states advance.  The Rust builder's
`finish` asserts that location, identifier and expression were filled; the
slots are kept optional here so that the assertion is a provable theorem. -/
structure LetStatementBuilder (T E : Type) where
  location : Option Location := none
  identifier : Option Identifier := none
  is_mutable : Bool := false
  type_variant : Option T := none
  expression : Option E := none

/-- Rust `builder.finish()` — the assembled let statement. -/
def LetStatementBuilder.finish (b : LetStatementBuilder T E) :
    LetStatementBuilder T E :=
  b

/-- Modelled from the spec: the token stream yields the next token, producing
an end-of-file lexeme once exhausted. -/
def TokenStream.next : List Token → Token × List Token
  | [] => (⟨Lexeme.Eof, ⟨0, 0⟩⟩, [])
  | t :: ts => (t, ts)

/-- Rust `take_or_next(opt, stream)` — use the peeked token when present, else pull
from the stream. -/
def take_or_next (opt : Option Token) (stream : List Token) :
    Token × List Token :=
  match opt with
  | some t => (t, stream)
  | none => TokenStream.next stream

/-- A sub-parser (type or expression): consumes tokens from the stream and
returns the parsed payload, an optional lookahead token, and the rest of the
stream. -/
abbrev SubParser (γ : Type) :=
  List Token → Except Error (γ × Option Token × List Token)

/-- The `State::Semicolon` arm of `Parser::parse` (`let.rs` lines 169–184). -/
def parseSemicolon (b : LetStatementBuilder T E) (next : Option Token)
    (stream : List Token) :
    Except Error (LetStatementBuilder T E × Option Token × List Token) :=
  match take_or_next next stream with
  | (⟨Lexeme.Symbol Symbol.Semicolon, _⟩, stream) => .ok (b.finish, none, stream)
  | (⟨lexeme, location⟩, _) =>
      .error (.Syntax (.ExpectedOneOfOrOperator location [";"] lexeme))

/-- The `State::Expression` arm (`let.rs` lines 162–168): run the expression
sub-parser (with no peeked token), record the expression, move to
`Semicolon`. -/
def parseExpression (exprParse : SubParser E) (b : LetStatementBuilder T E)
    (stream : List Token) :
    Except Error (LetStatementBuilder T E × Option Token × List Token) := do
  let (expression, next, stream) ← exprParse stream
  parseSemicolon { b with expression := some expression } next stream

/-- The `State::Equals` arm (`let.rs` lines 147–161): an equals sign moves to
`Expression`; anything else is the expected-value error. -/
def parseEquals (exprParse : SubParser E) (b : LetStatementBuilder T E)
    (next : Option Token) (stream : List Token) :
    Except Error (LetStatementBuilder T E × Option Token × List Token) :=
  match take_or_next next stream with
  | (⟨Lexeme.Symbol Symbol.Equals, _⟩, stream) => parseExpression exprParse b stream
  | (⟨lexeme, location⟩, _) =>
      .error (.Syntax (.ExpectedValue location lexeme (some HINT_EXPECTED_VALUE)))

/-- The `State::Type` arm (`let.rs` lines 141–146): run the type sub-parser
(with no peeked token), record the type, move to `Equals` with the
sub-parser's lookahead. -/
def parseTypeState (typeParse : SubParser T) (exprParse : SubParser E)
    (b : LetStatementBuilder T E) (stream : List Token) :
    Except Error (LetStatementBuilder T E × Option Token × List Token) := do
  let (t, next, stream) ← typeParse stream
  parseEquals exprParse { b with type_variant := some t } next stream

/-- The `State::ColonOrEquals` arm (`let.rs` lines 122–140): a colon moves to
`Type`, an equals sign to `Expression`; anything else is the
expected-type-or-value error. -/
def parseColonOrEquals (typeParse : SubParser T) (exprParse : SubParser E)
    (b : LetStatementBuilder T E) (next : Option Token) (stream : List Token) :
    Except Error (LetStatementBuilder T E × Option Token × List Token) :=
  match take_or_next next stream with
  | (⟨Lexeme.Symbol Symbol.Colon, _⟩, stream) =>
      parseTypeState typeParse exprParse b stream
  | (⟨Lexeme.Symbol Symbol.Equals, _⟩, stream) =>
      parseExpression exprParse b stream
  | (⟨lexeme, location⟩, _) =>
      .error (.Syntax (.ExpectedTypeOrValue location lexeme (some HINT_EXPECTED_VALUE)))

/-- The `State::Identifier` arm (`let.rs` lines 103–121). -/
def parseIdentifierState (typeParse : SubParser T) (exprParse : SubParser E)
    (b : LetStatementBuilder T E) (next : Option Token) (stream : List Token) :
    Except Error (LetStatementBuilder T E × Option Token × List Token) :=
  match take_or_next next stream with
  | (⟨Lexeme.Identifier name, location⟩, stream) =>
      parseColonOrEquals typeParse exprParse
        { b with identifier := some ⟨location, name⟩ } none stream
  | (⟨lexeme, location⟩, _) =>
      .error (.Syntax (.ExpectedIdentifier location lexeme (some HINT_EXPECTED_IDENTIFIER)))

/-- The `State::MutOrIdentifier` arm (`let.rs` lines 77–102). -/
def parseMutOrIdentifier (typeParse : SubParser T) (exprParse : SubParser E)
    (b : LetStatementBuilder T E) (next : Option Token) (stream : List Token) :
    Except Error (LetStatementBuilder T E × Option Token × List Token) :=
  match take_or_next next stream with
  | (⟨Lexeme.Keyword Keyword.Mut, _⟩, stream) =>
      parseIdentifierState typeParse exprParse { b with is_mutable := true } none stream
  | (⟨Lexeme.Identifier name, location⟩, stream) =>
      parseColonOrEquals typeParse exprParse
        { b with identifier := some ⟨location, name⟩ } none stream
  | (⟨lexeme, location⟩, _) =>
      .error (.Syntax (.ExpectedMutOrIdentifier location lexeme (some HINT_EXPECTED_IDENTIFIER)))

/-- Rust `Parser::parse` (`let.rs` lines 51–187), the state machine unrolled: each
state is visited at most once, in the order `KeywordLet`, `MutOrIdentifier`,
(`Identifier`), `ColonOrEquals`, (`Type`, `Equals`), `Expression`,
`Semicolon`.  The mutated token stream is returned explicitly. -/
def Parser.parse (typeParse : SubParser T) (exprParse : SubParser E)
    (stream : List Token) (initial : Option Token) :
    Except Error (LetStatementBuilder T E × Option Token × List Token) :=
  match take_or_next initial stream with
  | (⟨Lexeme.Keyword Keyword.Let, location⟩, stream) =>
      parseMutOrIdentifier typeParse exprParse { location := some location } none stream
  | (⟨lexeme, location⟩, _) =>
      .error (.Syntax (.ExpectedOneOf location ["let"] lexeme none))

/-- Modelled from the spec: a stand-in for the type sub-parser (its module is
not among the sources).  It accepts a single `Other` token as the type and
returns no lookahead. -/
def modelTypeParse : SubParser Unit := fun stream =>
  match TokenStream.next stream with
  | (⟨Lexeme.Other _, _⟩, stream) => .ok ((), none, stream)
  | (⟨lexeme, location⟩, _) =>
      .error (.Syntax (.ExpectedOneOf location ["type"] lexeme none))

/-- Modelled from the spec: a stand-in for the expression sub-parser (its
module is not among the sources).  It accepts a single `Other` token as the
expression and returns no lookahead. -/
def modelExprParse : SubParser Unit := fun stream =>
  match TokenStream.next stream with
  | (⟨Lexeme.Other _, _⟩, stream) => .ok ((), none, stream)
  | (⟨lexeme, location⟩, _) =>
      .error (.Syntax (.ExpectedOneOf location ["expression"] lexeme none))

end ZincCompiler

namespace Interpreter

mutual

theorem TypeVariant.beq_iff : ∀ t1 t2 : TypeVariant,
    (TypeVariant.beq t1 t2 = true) ↔ t1 = t2
  | .Unit, t2 => by cases t2 <;> simp [TypeVariant.beq]
  | .Boolean, t2 => by cases t2 <;> simp [TypeVariant.beq]
  | .Integer s1 b1, t2 => by cases t2 <;> simp [TypeVariant.beq]
  | .Array e1 n1, t2 => by
      cases t2
      case Array e2 n2 => simp [TypeVariant.beq, TypeVariant.beq_iff e1 e2]
      all_goals simp [TypeVariant.beq]
  | .Tuple l1, t2 => by
      cases t2
      case Tuple l2 => simp [TypeVariant.beq, TypeVariant.beqList_iff l1 l2]
      all_goals simp [TypeVariant.beq]
  | .Structure f1, t2 => by
      cases t2
      case Structure f2 => simp [TypeVariant.beq, TypeVariant.beqFields_iff f1 f2]
      all_goals simp [TypeVariant.beq]

theorem TypeVariant.beqList_iff : ∀ l1 l2 : List TypeVariant,
    (TypeVariant.beqList l1 l2 = true) ↔ l1 = l2
  | [], [] => by simp [TypeVariant.beqList]
  | [], _ :: _ => by simp [TypeVariant.beqList]
  | _ :: _, [] => by simp [TypeVariant.beqList]
  | t1 :: l1, t2 :: l2 => by
      simp [TypeVariant.beqList, TypeVariant.beq_iff t1 t2, TypeVariant.beqList_iff l1 l2]

theorem TypeVariant.beqFields_iff : ∀ f1 f2 : List (String × TypeVariant),
    (TypeVariant.beqFields f1 f2 = true) ↔ f1 = f2
  | [], [] => by simp [TypeVariant.beqFields]
  | [], _ :: _ => by simp [TypeVariant.beqFields]
  | _ :: _, [] => by simp [TypeVariant.beqFields]
  | (k1, t1) :: f1, (k2, t2) :: f2 => by
      simp [TypeVariant.beqFields, TypeVariant.beq_iff t1 t2, TypeVariant.beqFields_iff f1 f2]

end

/-- For every pair of values that are not enumerations, `has_the_same_type_as`
agrees with equality of the two structural type descriptors. -/
theorem hasTheSameTypeAs_iff_type_variant_eq (a b : Value)
    (ha : a.isEnumeration = false) (hb : b.isEnumeration = false) :
    (a.has_the_same_type_as b = true) ↔ a.type_variant = b.type_variant := by
  cases a <;> cases b <;>
    simp_all [Value.has_the_same_type_as, Value.type_variant, Value.isEnumeration,
      Integer.has_the_same_type_as, Integer.type_variant, Boolean.type_variant,
      arrayHasTheSameTypeAs, tupleHasTheSameTypeAs, structureHasTheSameTypeAs,
      TypeVariant.beq_iff, TypeVariant.new_unit, TypeVariant.new_integer_unsigned]

end Interpreter

namespace Interpreter

/-- C6 (counterexample): the claim "has_the_same_type_as returns true exactly
when the structural type descriptors are equal" is false at the concrete input
`Enumeration 0` compared with itself: the two descriptors are equal (both are
the unsigned 8-bit integer descriptor), yet the comparison returns `false`. -/
theorem enumeration_same_type_as_self_false :
    (Value.Enumeration 0).type_variant = (Value.Enumeration 0).type_variant
  ∧ (Value.Enumeration 0).has_the_same_type_as (Value.Enumeration 0) = false :=
  ⟨rfl, rfl⟩

/-- C6 (amended): for every pair of values neither of which is an enumeration,
`has_the_same_type_as` returns true exactly when the structural type
descriptors are equal, and its result depends only on those descriptors, never
on the concrete witness values; comparisons involving an enumeration return
false even when the descriptors agree. -/
theorem hasTheSameTypeAs_structural (a b : Value)
    (ha : a.isEnumeration = false) (hb : b.isEnumeration = false) :
    ((a.has_the_same_type_as b = true) ↔ a.type_variant = b.type_variant)
  ∧ (∀ a' b' : Value, a'.isEnumeration = false → b'.isEnumeration = false →
      a.type_variant = a'.type_variant → b.type_variant = b'.type_variant →
      a.has_the_same_type_as b = a'.has_the_same_type_as b')
  ∧ (∀ u v : Value, u.isEnumeration = true ∨ v.isEnumeration = true →
      u.has_the_same_type_as v = false) := by
  refine ⟨hasTheSameTypeAs_iff_type_variant_eq a b ha hb, ?_, ?_⟩
  · intro a' b' ha' hb' haa hbb
    have h1 := hasTheSameTypeAs_iff_type_variant_eq a b ha hb
    have h2 := hasTheSameTypeAs_iff_type_variant_eq a' b' ha' hb'
    rw [haa, hbb] at h1
    cases hc : a'.has_the_same_type_as b' with
    | true => exact h1.mpr (h2.mp hc)
    | false =>
        cases hd : a.has_the_same_type_as b with
        | true => exact absurd (h2.mpr (h1.mp hd)) (by simp [hc])
        | false => rfl
  · intro u v huv
    cases u <;> cases v <;>
      simp_all [Value.has_the_same_type_as, Value.isEnumeration]

/-- C6 (witness): the amended statement at the concrete input of two boolean
values with distinct assignments: the comparison agrees with descriptor
equality, flipping both witness bits leaves the result unchanged, and an
enumeration compared with a non-enumeration value yields false. -/
theorem hasTheSameTypeAs_structural_witness :
    (((Value.Boolean ⟨true⟩).has_the_same_type_as (Value.Boolean ⟨false⟩) = true)
      ↔ (Value.Boolean ⟨true⟩).type_variant = (Value.Boolean ⟨false⟩).type_variant)
  ∧ (Value.Boolean ⟨true⟩).has_the_same_type_as (Value.Boolean ⟨false⟩)
      = (Value.Boolean ⟨false⟩).has_the_same_type_as (Value.Boolean ⟨true⟩)
  ∧ (Value.Enumeration 3).has_the_same_type_as
      (Value.Integer ⟨3, false, 8⟩) = false :=
  ⟨(hasTheSameTypeAs_structural (Value.Boolean ⟨true⟩) (Value.Boolean ⟨false⟩) rfl rfl).1,
   (hasTheSameTypeAs_structural (Value.Boolean ⟨true⟩) (Value.Boolean ⟨false⟩) rfl rfl).2.1
     (Value.Boolean ⟨false⟩) (Value.Boolean ⟨true⟩) rfl rfl
     (by simp [Value.type_variant, Boolean.type_variant])
     (by simp [Value.type_variant, Boolean.type_variant]),
   (hasTheSameTypeAs_structural (Value.Boolean ⟨true⟩) (Value.Boolean ⟨false⟩) rfl rfl).2.2
     (Value.Enumeration 3) (Value.Integer ⟨3, false, 8⟩) (Or.inl rfl)⟩

/-- C9: for every two enumeration values — equal discriminants and
self-comparison included — `has_the_same_type_as` returns false, while
`type_variant` reports each of them as the unsigned 8-bit integer type, so the
two descriptors are always equal and the type comparison disagrees with
descriptor comparison and is not reflexive. -/
theorem enumeration_type_comparison_never_true (m n : Nat) :
    (Value.Enumeration m).has_the_same_type_as (Value.Enumeration n) = false
  ∧ (Value.Enumeration n).type_variant = TypeVariant.new_integer_unsigned 8
  ∧ (Value.Enumeration m).type_variant = (Value.Enumeration n).type_variant := by
  refine ⟨rfl, ?_, ?_⟩ <;> simp [Value.type_variant]

end Interpreter

namespace Interpreter

/-- C1 (counterexample): the claim "equals succeeds on two arrays of
structurally identical types and AND-folds element-wise equality" is false at
the concrete input of the one-element boolean array compared with itself: the
two operands have the same structural type, yet `equals` fails with
`OperandTypesMismatch`. -/
theorem equals_on_identical_arrays_fails :
    (Value.Array [Value.Boolean ⟨true⟩]).has_the_same_type_as
      (Value.Array [Value.Boolean ⟨true⟩]) = true
  ∧ (Value.Array [Value.Boolean ⟨true⟩]).equals 0 (Value.Array [Value.Boolean ⟨true⟩])
      = (Except.error (Error.OperandTypesMismatch
          (Value.Array [Value.Boolean ⟨true⟩]) (Value.Array [Value.Boolean ⟨true⟩])), 0) := by
  constructor
  · simp [Value.has_the_same_type_as, arrayHasTheSameTypeAs, TypeVariant.beq_iff]
  · rfl

/-- C1 (amended): `equals` on two Unit values succeeds and returns the
constant boolean true; on every pair of values that are both arrays, both
tuples, or both structures, it does not recurse element-wise but fails with
`OperandTypesMismatch`, leaving the constraint system untouched. -/
theorem equals_unit_and_aggregates (a b : Value) (cs : CS)
    (h : (a.isArray = true ∧ b.isArray = true) ∨ (a.isTuple = true ∧ b.isTuple = true)
       ∨ (a.isStructure = true ∧ b.isStructure = true)) :
    a.equals cs b = (Except.error (Error.OperandTypesMismatch a b), cs)
  ∧ Value.Unit.equals cs Value.Unit = (Except.ok (Value.Boolean ⟨true⟩), cs + 1) := by
  constructor
  · cases a <;> cases b <;>
      simp_all [Value.equals, Value.isArray, Value.isTuple, Value.isStructure]
  · rfl

/-- C1 (witness): the amended statement at the concrete input of two empty
arrays. -/
theorem equals_unit_and_aggregates_witness :
    (Value.Array []).equals 0 (Value.Array [])
      = (Except.error (Error.OperandTypesMismatch (Value.Array []) (Value.Array [])), 0)
  ∧ Value.Unit.equals 0 Value.Unit = (Except.ok (Value.Boolean ⟨true⟩), 1) :=
  equals_unit_and_aggregates (Value.Array []) (Value.Array []) 0 (Or.inl ⟨rfl, rfl⟩)

/-- C4: every value-algebra operation rejects an operand of the wrong kind
with a typed error and leaves the constraint system untouched: `and`, `or`,
`xor` (and unary `not`) return `ExpectedBoolean` whenever an operand is not a
boolean, and `add`, `subtract`, `multiply`, `divide`, `modulo`, `greater`,
`greater_equals`, `lesser`, `lesser_equals` (and unary `negate`) return
`ExpectedInteger` whenever an operand is not an integer. -/
theorem value_ops_reject_wrong_kind (a b : Value) (cs : CS) :
    ((a.isBoolean = false ∨ b.isBoolean = false) →
       rejectsBoolean (a.and cs b) cs ∧ rejectsBoolean (a.or cs b) cs
     ∧ rejectsBoolean (a.xor cs b) cs)
  ∧ (a.isBoolean = false → rejectsBoolean (a.not cs) cs)
  ∧ ((a.isInteger = false ∨ b.isInteger = false) →
       rejectsInteger (a.add cs b) cs ∧ rejectsInteger (a.subtract cs b) cs
     ∧ rejectsInteger (a.multiply cs b) cs ∧ rejectsInteger (a.divide cs b) cs
     ∧ rejectsInteger (a.modulo cs b) cs ∧ rejectsInteger (a.greater cs b) cs
     ∧ rejectsInteger (a.greater_equals cs b) cs ∧ rejectsInteger (a.lesser cs b) cs
     ∧ rejectsInteger (a.lesser_equals cs b) cs)
  ∧ (a.isInteger = false → rejectsInteger (a.negate cs) cs) := by
  cases a <;> cases b <;>
    simp [Value.isBoolean, Value.isInteger, rejectsBoolean, rejectsInteger,
      Value.and, Value.or, Value.xor, Value.not, Value.add, Value.subtract,
      Value.multiply, Value.divide, Value.modulo, Value.negate, Value.greater,
      Value.greater_equals, Value.lesser, Value.lesser_equals]

/-- C4 (witness): the rejection statements at the concrete input of two Unit
operands, which are neither booleans nor integers. -/
theorem value_ops_reject_wrong_kind_witness :
    (rejectsBoolean (Value.Unit.and 0 Value.Unit) 0 ∧ rejectsBoolean (Value.Unit.or 0 Value.Unit) 0
      ∧ rejectsBoolean (Value.Unit.xor 0 Value.Unit) 0)
  ∧ rejectsBoolean (Value.Unit.not 0) 0
  ∧ (rejectsInteger (Value.Unit.add 0 Value.Unit) 0 ∧ rejectsInteger (Value.Unit.subtract 0 Value.Unit) 0
      ∧ rejectsInteger (Value.Unit.multiply 0 Value.Unit) 0 ∧ rejectsInteger (Value.Unit.divide 0 Value.Unit) 0
      ∧ rejectsInteger (Value.Unit.modulo 0 Value.Unit) 0 ∧ rejectsInteger (Value.Unit.greater 0 Value.Unit) 0
      ∧ rejectsInteger (Value.Unit.greater_equals 0 Value.Unit) 0 ∧ rejectsInteger (Value.Unit.lesser 0 Value.Unit) 0
      ∧ rejectsInteger (Value.Unit.lesser_equals 0 Value.Unit) 0)
  ∧ rejectsInteger (Value.Unit.negate 0) 0 :=
  ⟨(value_ops_reject_wrong_kind Value.Unit Value.Unit 0).1 (Or.inl rfl),
   (value_ops_reject_wrong_kind Value.Unit Value.Unit 0).2.1 rfl,
   (value_ops_reject_wrong_kind Value.Unit Value.Unit 0).2.2.1 (Or.inl rfl),
   (value_ops_reject_wrong_kind Value.Unit Value.Unit 0).2.2.2 rfl⟩

/-- C5: `not_equals` succeeds exactly when `equals` succeeds; on failure the
error kinds coincide, and on success the boolean returned by `not_equals` is
the logical negation of the one returned by `equals`; in particular
`not_equals` on two Unit values returns the constant boolean false. -/
theorem not_equals_negates_equals (a b : Value) (cs : CS) :
    (Value.Unit.not_equals cs Value.Unit).1 = Except.ok (Value.Boolean ⟨false⟩)
  ∧ (∀ e, (a.equals cs b).1 = .error e →
      ∃ f, (a.not_equals cs b).1 = .error f ∧ f.kind = e.kind)
  ∧ (∀ f, (a.not_equals cs b).1 = .error f →
      ∃ e, (a.equals cs b).1 = .error e ∧ e.kind = f.kind)
  ∧ (∀ v, (a.equals cs b).1 = .ok v →
      ∃ bit : Boolean, v = Value.Boolean bit
        ∧ (a.not_equals cs b).1 = .ok (Value.Boolean ⟨!bit.value⟩)) := by
  refine ⟨rfl, ?_, ?_, ?_⟩ <;>
    cases a <;> cases b <;>
      simp [Value.equals, Value.not_equals, Boolean.equals, Boolean.not_equals,
        Integer.equals, Integer.not_equals, Boolean.new_from_bool, Error.kind]

/-- C5 (witness): the negation statement at the concrete input of two equal
boolean values. -/
theorem not_equals_negates_equals_witness :
    ∃ bit : Boolean, Value.Boolean ⟨true⟩ = Value.Boolean bit
      ∧ ((Value.Boolean ⟨true⟩).not_equals 0 (Value.Boolean ⟨true⟩)).1
          = .ok (Value.Boolean ⟨!bit.value⟩) :=
  (not_equals_negates_equals (Value.Boolean ⟨true⟩) (Value.Boolean ⟨true⟩) 0).2.2.2
    (Value.Boolean ⟨true⟩) rfl

/-- C7: for all integer values of the same width and signedness, `equals` is
reflexive (an integer equals itself, yielding the boolean true) and symmetric
(swapping the operands yields the same boolean). -/
theorem integer_equals_refl_symm (x y : Int) (s : Bool) (w : Nat) (cs : CS) :
    ((Value.Integer ⟨x, s, w⟩).equals cs (Value.Integer ⟨x, s, w⟩)).1
      = Except.ok (Value.Boolean ⟨true⟩)
  ∧ ((Value.Integer ⟨x, s, w⟩).equals cs (Value.Integer ⟨y, s, w⟩)).1
      = ((Value.Integer ⟨y, s, w⟩).equals cs (Value.Integer ⟨x, s, w⟩)).1 := by
  constructor
  · simp [Value.equals, Integer.equals]
  · have h : (decide (x = y)) = (decide (y = x)) := decide_eq_decide.mpr eq_comm
    simp [Value.equals, Integer.equals, h]

end Interpreter

namespace ZincVm

theorem StoreSequence.loop_spec {α : Type} (address len : Nat) :
    ∀ (k i : Nat) (vs rest : List α) (mem : Nat → Option α),
      i + k = len → vs.length = k →
      ∃ m', StoreSequence.loop address len i ⟨vs ++ rest, mem⟩ = .ok ⟨rest, m'⟩
        ∧ (∀ t (ht : t < k) (hv : t < vs.length),
            m' (address + k - t - 1) = some (vs.get ⟨t, hv⟩))
        ∧ (∀ j, j < address ∨ address + k ≤ j → m' j = mem j) := by
  intro k
  induction k with
  | zero =>
      intro i vs rest mem hik hvs
      have hvs' : vs = [] := List.eq_nil_of_length_eq_zero hvs
      subst hvs'
      refine ⟨mem, ?_, ?_, ?_⟩
      · rw [StoreSequence.loop]
        simp [show ¬ i < len by omega]
      · intro t ht _; omega
      · intro j _; rfl
  | succ k ih =>
      intro i vs rest mem hik hvs
      match vs, hvs with
      | v :: vs', hvs =>
        have hvs' : vs'.length = k := by simpa using hvs
        have hoff : address + len - i - 1 = address + k := by omega
        obtain ⟨m', hrun, hin, hout⟩ :=
          ih (i + 1) vs' rest (fun j => if j = address + k then some v else mem j)
            (by omega) hvs'
        refine ⟨m', ?_, ?_, ?_⟩
        · rw [StoreSequence.loop]
          simp [show i < len by omega, VirtualMachine.pop, VirtualMachine.store, hoff]
          exact hrun
        · intro t ht hv
          match t with
          | 0 =>
              have : m' (address + k) = (fun j => if j = address + k then some v else mem j)
                  (address + k) := hout (address + k) (Or.inr (by omega))
              simpa [show address + (k + 1) - 0 - 1 = address + k by omega] using this
          | t' + 1 =>
              have ht' : t' < k := by omega
              have hv' : t' < vs'.length := by omega
              have := hin t' ht' hv'
              simpa [show address + (k + 1) - (t' + 1) - 1 = address + k - t' - 1 by omega]
                using this
        · intro j hj
          have h1 : m' j = (fun j => if j = address + k then some v else mem j) j := by
            apply hout
            omega
          have h2 : j ≠ address + k := by omega
          simpa [h2] using h1

/-- C2: for every base address and every stack whose top `n` entries are
`vs` (head of the list is the top of the stack), executing
`store-sequence(base, n)` pops exactly those `n` values and writes the i-th
popped value (counting from 0) to offset `base + n − 1 − i`, so the first
popped value lands at the highest address; every other memory cell is
untouched. -/
theorem store_sequence_reverse_pop_order {α : Type} (address len : Nat)
    (vs rest : List α) (mem : Nat → Option α) (hlen : vs.length = len) :
    ∃ m', StoreSequence.execute ⟨address, len⟩ ⟨vs ++ rest, mem⟩ = .ok ⟨rest, m'⟩
      ∧ (∀ i (hi : i < len) (hv : i < vs.length),
          m' (address + len - i - 1) = some (vs.get ⟨i, hv⟩))
      ∧ (∀ j, j < address ∨ address + len ≤ j → m' j = mem j) :=
  StoreSequence.loop_spec address len len 0 vs rest mem (by omega) hlen

/-- C2 (witness): storing two values at base 5: the first popped value `10`
lands at the highest offset 6, the second at 5, the cell at 7 stays empty. -/
theorem store_sequence_reverse_pop_order_witness :
    ∃ m', StoreSequence.execute ⟨5, 2⟩ ⟨[10, 20] ++ [7], fun _ => (none : Option Nat)⟩
        = .ok ⟨[7], m'⟩
      ∧ (∀ i (hi : i < 2) (hv : i < [10, 20].length),
          m' (5 + 2 - i - 1) = some ([10, 20].get ⟨i, hv⟩))
      ∧ (∀ j, j < 5 ∨ 5 + 2 ≤ j → m' j = (fun _ => (none : Option Nat)) j) :=
  store_sequence_reverse_pop_order 5 2 [10, 20] [7] (fun _ => none) rfl

end ZincVm

namespace Zinc

/-- C3: for every pair of element values `t` and `f`, one VM step at a
conditional-select instruction with a true condition (the field value 1) on
top of the stack pushes exactly `t`, and with a false condition (0) pushes
exactly `f`; in both cases the program counter advances by one, as for any
straight-line instruction, never diverging. -/
theorem conditional_select_equivalence (t f : Element) (rest : List Element) (pc : Nat) :
    ConditionalSelect.step ⟨1 :: t :: f :: rest, pc⟩ = .ok ⟨t :: rest, pc + 1⟩
  ∧ ConditionalSelect.step ⟨0 :: t :: f :: rest, pc⟩ = .ok ⟨f :: rest, pc + 1⟩ := by
  constructor <;>
    simp [ConditionalSelect.step, ConditionalSelect.execute, VirtualMachine.pop,
      VirtualMachine.push, conditional_select, Bind.bind, Except.bind]

/-- C8: the conditional-select handler pops exactly three values in the fixed
order condition (top), `if_true`, `if_false` (pushed first of the three), and
pushes exactly one selected result, so the net stack-depth change is −2; the
program counter stored in the state is left to the dispatch loop. -/
theorem conditional_select_stack_discipline (c t f sel : Element)
    (rest : List Element) (pc : Nat)
    (h : conditional_select c t f = .ok sel) :
    ConditionalSelect.execute ⟨c :: t :: f :: rest, pc⟩ = .ok ⟨sel :: rest, pc⟩
  ∧ (sel :: rest).length + 2 = (c :: t :: f :: rest).length := by
  have hsel : sel = c * t + (1 - c) * f := by
    simpa [conditional_select] using h.symm
  subst hsel
  constructor
  · simp [ConditionalSelect.execute, VirtualMachine.pop, VirtualMachine.push,
      conditional_select, Bind.bind, Except.bind]
  · simp

/-- C8 (witness): selecting with a false condition (0) among 1 and 2 pushes
2 — the value that was pushed first — and shrinks the stack by two. -/
theorem conditional_select_stack_discipline_witness :
    ConditionalSelect.execute ⟨0 :: 1 :: 2 :: [], 0⟩ = .ok ⟨2 :: [], 0⟩
  ∧ ((2 : Element) :: []).length + 2 = ((0 : Element) :: 1 :: 2 :: []).length :=
  conditional_select_stack_discipline 0 1 2 2 [] 0 (by norm_num [conditional_select])

end Zinc

namespace ZincCompiler

theorem parseSemicolon_ok {T E : Type} (b : LetStatementBuilder T E)
    (next : Option Token) (stream : List Token) (out) :
    parseSemicolon b next stream = .ok out → out.1.expression = b.expression := by
  unfold parseSemicolon
  split
  · intro h
    cases h
    rfl
  · intro h
    cases h

theorem parseExpression_ok {T E : Type} (exprParse : SubParser E)
    (b : LetStatementBuilder T E) (stream : List Token) (out) :
    parseExpression exprParse b stream = .ok out → out.1.expression.isSome = true := by
  unfold parseExpression
  cases hE : exprParse stream with
  | error e => simp [Bind.bind, Except.bind]
  | ok r =>
      obtain ⟨e, next, stream'⟩ := r
      simp only [Bind.bind, Except.bind]
      intro h
      have := parseSemicolon_ok _ next stream' out h
      simp [this]

theorem parseEquals_ok {T E : Type} (exprParse : SubParser E)
    (b : LetStatementBuilder T E) (next : Option Token) (stream : List Token) (out) :
    parseEquals exprParse b next stream = .ok out → out.1.expression.isSome = true := by
  unfold parseEquals
  split
  · exact parseExpression_ok exprParse b _ out
  · intro h
    cases h

theorem parseTypeState_ok {T E : Type} (typeParse : SubParser T) (exprParse : SubParser E)
    (b : LetStatementBuilder T E) (stream : List Token) (out) :
    parseTypeState typeParse exprParse b stream = .ok out →
      out.1.expression.isSome = true := by
  unfold parseTypeState
  cases hT : typeParse stream with
  | error e => simp [Bind.bind, Except.bind]
  | ok r =>
      obtain ⟨t, next, stream'⟩ := r
      simp only [Bind.bind, Except.bind]
      exact parseEquals_ok exprParse _ next stream' out

theorem parseColonOrEquals_ok {T E : Type} (typeParse : SubParser T)
    (exprParse : SubParser E) (b : LetStatementBuilder T E) (next : Option Token)
    (stream : List Token) (out) :
    parseColonOrEquals typeParse exprParse b next stream = .ok out →
      out.1.expression.isSome = true := by
  unfold parseColonOrEquals
  split
  · exact parseTypeState_ok typeParse exprParse b _ out
  · exact parseExpression_ok exprParse b _ out
  · intro h
    cases h

theorem parseIdentifierState_ok {T E : Type} (typeParse : SubParser T)
    (exprParse : SubParser E) (b : LetStatementBuilder T E) (next : Option Token)
    (stream : List Token) (out) :
    parseIdentifierState typeParse exprParse b next stream = .ok out →
      out.1.expression.isSome = true := by
  unfold parseIdentifierState
  split
  · exact parseColonOrEquals_ok typeParse exprParse _ none _ out
  · intro h
    cases h

theorem parseMutOrIdentifier_ok {T E : Type} (typeParse : SubParser T)
    (exprParse : SubParser E) (b : LetStatementBuilder T E) (next : Option Token)
    (stream : List Token) (out) :
    parseMutOrIdentifier typeParse exprParse b next stream = .ok out →
      out.1.expression.isSome = true := by
  unfold parseMutOrIdentifier
  split
  · exact parseIdentifierState_ok typeParse exprParse _ none _ out
  · exact parseColonOrEquals_ok typeParse exprParse _ none _ out
  · intro h
    cases h

/-- C10: the let-statement parser accepts only declarations with an
initializer: an input of the shape `let x;` is rejected with the
expected-type-or-value syntax error, an input of the shape `let x: T;` is
rejected with the expected-value syntax error, and every successfully parsed
let statement contains an expression — for any behaviour of the type and
expression sub-parsers. -/
theorem let_statement_requires_initializer :
    (∀ (T E : Type) (typeParse : SubParser T) (exprParse : SubParser E)
       (name : String) (l1 l2 l3 : Location) (rest : List Token),
        Parser.parse typeParse exprParse
          (⟨.Keyword .Let, l1⟩ :: ⟨.Identifier name, l2⟩
            :: ⟨.Symbol .Semicolon, l3⟩ :: rest) none
          = .error (.Syntax (.ExpectedTypeOrValue l3 (.Symbol .Semicolon)
              (some HINT_EXPECTED_VALUE))))
  ∧ (∀ (E : Type) (exprParse : SubParser E) (name tname : String)
       (l1 l2 l3 l4 l5 : Location) (rest : List Token),
        Parser.parse modelTypeParse exprParse
          (⟨.Keyword .Let, l1⟩ :: ⟨.Identifier name, l2⟩ :: ⟨.Symbol .Colon, l3⟩
            :: ⟨.Other tname, l4⟩ :: ⟨.Symbol .Semicolon, l5⟩ :: rest) none
          = .error (.Syntax (.ExpectedValue l5 (.Symbol .Semicolon)
              (some HINT_EXPECTED_VALUE))))
  ∧ (∀ (T E : Type) (typeParse : SubParser T) (exprParse : SubParser E)
       (stream : List Token) (initial : Option Token) (out),
        Parser.parse typeParse exprParse stream initial = .ok out →
        out.1.expression.isSome = true) := by
  refine ⟨?_, ?_, ?_⟩
  · intro T E typeParse exprParse name l1 l2 l3 rest
    rfl
  · intro E exprParse name tname l1 l2 l3 l4 l5 rest
    rfl
  · intro T E typeParse exprParse stream initial out
    unfold Parser.parse
    split
    · exact parseMutOrIdentifier_ok typeParse exprParse _ none _ out
    · intro h
      cases h

/-- C10 (witness): parsing the concrete well-formed input
`let a = 42;` (with the model sub-parsers) succeeds, and the resulting
statement indeed contains an expression. -/
theorem let_statement_requires_initializer_witness :
    (({ location := some ⟨1, 1⟩, identifier := some ⟨⟨1, 5⟩, "a"⟩,
        type_variant := none, expression := some () } : LetStatementBuilder Unit Unit),
      (none : Option Token), ([] : List Token)).1.expression.isSome = true :=
  let_statement_requires_initializer.2.2 Unit Unit modelTypeParse modelExprParse
    [⟨.Keyword .Let, ⟨1, 1⟩⟩, ⟨.Identifier "a", ⟨1, 5⟩⟩, ⟨.Symbol .Equals, ⟨1, 7⟩⟩,
     ⟨.Other "42", ⟨1, 9⟩⟩, ⟨.Symbol .Semicolon, ⟨1, 11⟩⟩] none _ rfl

end ZincCompiler
